import Mathlib

/-!
Verification development for PromptLibTool (src/PromptLibTool.py), a
Streamlit tool that assembles prompts from CSV-backed text fragments.

The embedding below translates the data model and the operations of the
source into Lean:
* a library row (`Fragment`, CSV columns title/type/content) and a history
  row (`HistoryRow`, CSV columns name/timestamp/prompt);
* `DataManager.load_data` / `save_data` / `save_prompt` as pure functions
  on an `Option (List row)` model of the backing file (`none` = the file
  is missing, `some rows` = the file holds the header plus `rows`);
* `PromptBuilder._generate_prompt` as a function from the per-category
  selections and the loaded library to `Option String` (`none` models the
  unhandled IndexError raised by `df[df.title == a].content.values[0]`
  when no row matches);
* the delete branch of `ElementEditor._render_element` as row removal at
  a position;
* the direct `pd.read_csv` in `PromptBrowser.render`, which has its own
  FileNotFoundError handler distinct from `DataManager.load_data`.

Timestamps (`datetime.now()`) are modelled by passing the current value
explicitly.
-/

/-- A row of `prompt_elements.csv` (constant `CSV_COLUMNS`, line 25). -/
structure Fragment where
  title : String
  type : String
  content : String
deriving DecidableEq, Repr

/-- A row of `prompt_history.csv` (constant `PROMPT_HISTORY_COLUMNS`, line 26).
`timestamp` is the stringified `datetime.now()` value. -/
structure HistoryRow where
  name : String
  timestamp : String
  prompt : String
deriving DecidableEq, Repr

/-- The loaded `prompt_elements` table, in row order. -/
abbrev Library := List Fragment

/-- `df[df.title == t].content.values[0]` (lines 278 and 284): the
`content` of the first row whose `title` equals `t` exactly; `none` models
the IndexError raised when no row matches. -/
def lookupContent (df : Library) (t : String) : Option String :=
  (df.find? (fun f => f.title == t)).map Fragment.content

/-- Single-select state for role/goal/tone: `selected` is the value of the
selectbox (one of "Skip", "Write your own", or a fragment title), `custom`
the free text (empty when the sentinel is not chosen). -/
structure SingleSel where
  selected : String
  custom : String
deriving DecidableEq, Repr

/-- Multi-select state for audience/context/output: `selected` is the
multiselect value list, `custom` the free text. -/
structure MultiSel where
  selected : List String
  custom : String
deriving DecidableEq, Repr

/-- The `selections` dict built by `PromptBuilder.render` (lines 224-234),
with the fields in the dict's insertion order: role, goal, audience,
context, output, tone. -/
structure Selections where
  role : SingleSel
  goal : SingleSel
  audience : MultiSel
  context : MultiSel
  output : MultiSel
  tone : SingleSel
deriving DecidableEq, Repr

/-- The list comprehension of lines 278-279 after the sentinel filter: look
up each referenced title in order; a single missing title makes the whole
comprehension raise (modelled as `none`). -/
def lookupAllContents (df : Library) : List String → Option (List String)
  | [] => some []
  | a :: rest => do
      let c ← lookupContent df a
      let cs ← lookupAllContents df rest
      pure (c :: cs)

/-- Content computed in the multi-select branch (lines 277-279): the free
text when the "Write your own" sentinel is among the selections, else the
looked-up contents of the non-sentinel references joined by newlines. -/
def multiContent (df : Library) (data : MultiSel) : Option String :=
  if data.selected.contains "Write your own" then some data.custom
  else (lookupAllContents df
          (data.selected.filter (fun a => a != "Skip" && a != "Write your own"))).map
        (String.intercalate "\n")

/-- Content computed in the single-select branch (lines 283-284): the free
text when "Write your own" is selected, else the looked-up content. -/
def singleContent (df : Library) (data : SingleSel) : Option String :=
  if data.selected == "Write your own" then some data.custom
  else lookupContent df data.selected

/-- One loop iteration of `_generate_prompt` for a single-select category
(lines 270-272 and 282-285): the list of parts the category appends. The
skip guard fires on "Skip"; otherwise the part is appended unconditionally,
even when the content is empty. -/
def singleSection (df : Library) (label : String) (data : SingleSel) :
    Option (List String) :=
  if data.selected == "Skip" then some []
  else (singleContent df data).map (fun content => [label ++ ": " ++ content])

/-- One loop iteration of `_generate_prompt` for a multi-select category
(lines 270-281): the skip guard fires on the empty list and on ["Skip"];
otherwise the part is appended only when the content is non-empty
(`if content:` on line 280). -/
def multiSection (df : Library) (label : String) (data : MultiSel) :
    Option (List String) :=
  if data.selected.isEmpty || data.selected == ["Skip"] then some []
  else (multiContent df data).map
        (fun content => if content == "" then [] else [label ++ ":\n" ++ content])

/-- The fixed string appended on line 290 when the recursive-feedback box
is checked, exactly as it appears in the source (it carries its own
leading blank-line separator). -/
def feedback_suffix : String :=
  "\n\nBefore you provide the response, please ask me any questions that you feel could help you craft a better response. If you feel you have enough information to craft this response, please just provide it."

/-- The `prompt_parts` list accumulated by the loop of
`_generate_prompt` (lines 267-285), in the dict's iteration order; `none`
models the IndexError of a failed title lookup aborting the whole call.
The labels are `section.title()` with audience relabeled
"Target Audience" (lines 274-276). -/
def promptParts (selections : Selections) (df : Library) :
    Option (List String) := do
  let pr ← singleSection df "Role" selections.role
  let pg ← singleSection df "Goal" selections.goal
  let pa ← multiSection df "Target Audience" selections.audience
  let pc ← multiSection df "Context" selections.context
  let po ← multiSection df "Output" selections.output
  let pt ← singleSection df "Tone" selections.tone
  pure (pr ++ pg ++ pa ++ pc ++ po ++ pt)

/-- `PromptBuilder._generate_prompt` (lines 264-292): join the parts with
a blank line (line 287) and append the feedback suffix when requested
(lines 289-290). -/
def generate_prompt (selections : Selections) (df : Library)
    (recursive_feedback : Bool) : Option String :=
  (promptParts selections df).map (fun ps =>
    let prompt := String.intercalate "\n\n" ps
    if recursive_feedback then prompt ++ feedback_suffix else prompt)

/-- `DataManager.load_data` (lines 118-126) on a backing file modelled as
`Option (List Row)` (`none` = missing). It returns the table read together
with the file's state afterwards: a missing file reads as the empty table
and is created holding only the header (`some []`). -/
def load_data {Row : Type} (file : Option (List Row)) :
    List Row × Option (List Row) :=
  match file with
  | some rows => (rows, some rows)
  | none => ([], some [])

/-- `DataManager.save_data` (lines 128-131): overwrite the backing file
with the given table. -/
def save_data {Row : Type} (df : List Row) : Option (List Row) :=
  some df

/-- What `PromptBrowser.render` shows for the history file. -/
inductive BrowserView
  | listing (rows : List HistoryRow)
  | missingWarning
deriving DecidableEq, Repr

/-- The read performed by `PromptBrowser.render` (lines 310-316): a direct
`pd.read_csv` with its own FileNotFoundError handler that shows a warning
and returns, leaving the file as it was. It does not go through
`DataManager.load_data` and never creates the file. -/
def browser_read (file : Option (List HistoryRow)) :
    BrowserView × Option (List HistoryRow) :=
  match file with
  | some rows => (.listing rows, some rows)
  | none => (.missingWarning, none)

/-- `DataManager.save_prompt` (lines 133-142): load the history table
(creating the file when missing), append one row carrying the name, the
current timestamp and the prompt text, and write the table back. The
result is the file's state afterwards. -/
def save_prompt (file : Option (List HistoryRow)) (name prompt : String)
    (now : String) : Option (List HistoryRow) :=
  let df := (load_data file).1
  save_data (df ++ [⟨name, now, prompt⟩])

/-- The delete branch of `ElementEditor._render_element` (lines 211-213):
`df.drop(index)` removes the row whose positional label is `i` (the table
was just read, so labels coincide with positions), and `save_data`
rewrites the file with the remaining rows. -/
def delete_element (df : Library) (i : Nat) : Option Library :=
  save_data (df.eraseIdx i)

/-- C2: with the library holding the single fragment
{title "Expert", type role, content "You are a senior engineer."},
selecting role = "Expert", "Skip" for the other single-select categories,
an empty or skip-only selection for each multi-select category, and the
recursive-feedback flag off, the generated prompt is exactly
"Role: You are a senior engineer.". -/
theorem C2_expert_role_only
    (la lc lo : List String)
    (ha : la = [] ∨ la = ["Skip"]) (hc : lc = [] ∨ lc = ["Skip"])
    (ho : lo = [] ∨ lo = ["Skip"])
    (cr cg ca cc co ct : String) :
    generate_prompt
      ⟨⟨"Expert", cr⟩, ⟨"Skip", cg⟩, ⟨la, ca⟩, ⟨lc, cc⟩, ⟨lo, co⟩, ⟨"Skip", ct⟩⟩
      [⟨"Expert", "role", "You are a senior engineer."⟩] false
    = some "Role: You are a senior engineer." := by
  rcases ha with rfl | rfl <;> rcases hc with rfl | rfl <;>
    rcases ho with rfl | rfl <;> rfl

/-- Witness for C2 at a fully concrete input. -/
theorem C2_expert_role_only_witness :
    generate_prompt
      ⟨⟨"Expert", ""⟩, ⟨"Skip", ""⟩, ⟨[], ""⟩, ⟨["Skip"], ""⟩, ⟨[], ""⟩, ⟨"Skip", ""⟩⟩
      [⟨"Expert", "role", "You are a senior engineer."⟩] false
    = some "Role: You are a senior engineer." :=
  C2_expert_role_only [] ["Skip"] [] (Or.inl rfl) (Or.inr rfl) (Or.inl rfl)
    "" "" "" "" "" ""

/-- C4: when every category is skipped ("Skip" for the single-select
categories, an empty or skip-only list for the multi-select ones) the
prompt body is empty: with the feedback flag off the output is the empty
string, with it on the output is exactly the fixed appended feedback
string. -/
theorem C4_all_skip_empty_body
    (df : Library)
    (la lc lo : List String)
    (ha : la = [] ∨ la = ["Skip"]) (hc : lc = [] ∨ lc = ["Skip"])
    (ho : lo = [] ∨ lo = ["Skip"])
    (cr cg ca cc co ct : String) :
    generate_prompt
      ⟨⟨"Skip", cr⟩, ⟨"Skip", cg⟩, ⟨la, ca⟩, ⟨lc, cc⟩, ⟨lo, co⟩, ⟨"Skip", ct⟩⟩
      df false = some "" ∧
    generate_prompt
      ⟨⟨"Skip", cr⟩, ⟨"Skip", cg⟩, ⟨la, ca⟩, ⟨lc, cc⟩, ⟨lo, co⟩, ⟨"Skip", ct⟩⟩
      df true = some feedback_suffix := by
  rcases ha with rfl | rfl <;> rcases hc with rfl | rfl <;>
    rcases ho with rfl | rfl <;> exact ⟨rfl, rfl⟩

/-- Witness for C4 at a fully concrete input. -/
theorem C4_all_skip_empty_body_witness :
    generate_prompt
      ⟨⟨"Skip", ""⟩, ⟨"Skip", ""⟩, ⟨[], ""⟩, ⟨[], ""⟩, ⟨["Skip"], ""⟩, ⟨"Skip", ""⟩⟩
      [⟨"Expert", "role", "You are a senior engineer."⟩] false = some "" ∧
    generate_prompt
      ⟨⟨"Skip", ""⟩, ⟨"Skip", ""⟩, ⟨[], ""⟩, ⟨[], ""⟩, ⟨["Skip"], ""⟩, ⟨"Skip", ""⟩⟩
      [⟨"Expert", "role", "You are a senior engineer."⟩] true
      = some feedback_suffix :=
  C4_all_skip_empty_body [⟨"Expert", "role", "You are a senior engineer."⟩]
    [] [] ["Skip"] (Or.inl rfl) (Or.inl rfl) (Or.inr rfl) "" "" "" "" "" ""

/-- C6 counterexample: the read performed by the prompt-history browser on
a missing file shows a warning and leaves the file missing; it neither
returns an empty table nor creates the file with a header row, refuting
the claim for that read. -/
theorem C6_browser_read_counterexample :
    browser_read none = (BrowserView.missingWarning, none) ∧
    browser_read none ≠ (BrowserView.listing [], some []) := by
  exact ⟨rfl, by decide⟩

/-- C6 amended: every read that goes through `DataManager.load_data` on a
missing backing file returns the empty table and creates the file holding
only the header (this covers both `prompt_elements` and the
`prompt_history` read done while saving); the prompt-history browser's
own read instead warns and does not create the file. -/
theorem C6_load_data_missing_file :
    load_data (none : Option (List Fragment)) = ([], some []) ∧
    load_data (none : Option (List HistoryRow)) = ([], some []) ∧
    browser_read none = (BrowserView.missingWarning, none) :=
  ⟨rfl, rfl, rfl⟩

/-- C7: saving a prompt against any prior history state appends exactly
one row, carrying the given name, the timestamp taken at save time and
the exact rendered text; every previously stored row is preserved
unchanged in place (in particular an earlier entry with the same name is
not overwritten). -/
theorem C7_save_prompt_appends :
    ∀ (prior : List HistoryRow) (nm text now : String),
    ∃ hist : List HistoryRow,
      save_prompt (some prior) nm text now = some hist ∧
      hist = prior ++ [⟨nm, now, text⟩] ∧
      hist.length = prior.length + 1 ∧
      hist.take prior.length = prior ∧
      hist.drop prior.length = [⟨nm, now, text⟩] := by
  intro prior nm text now
  refine ⟨prior ++ [(⟨nm, now, text⟩ : HistoryRow)], rfl, rfl, by simp, ?_, ?_⟩
  · exact List.take_left prior _
  · exact List.drop_left prior _

/-- C8: deleting the fragment at a valid position i yields a table with
one fewer row in which every row before position i is unchanged and every
row from position i onward is the original row at the next position (all
three field values preserved, positions shifted up by one). -/
theorem C8_delete_element (df : Library) (i : Nat) (hi : i < df.length) :
    ∃ df2 : Library,
      delete_element df i = some df2 ∧
      df2.length = df.length - 1 ∧
      (∀ j, j < i → df2[j]? = df[j]?) ∧
      (∀ j, i ≤ j → df2[j]? = df[j + 1]?) := by
  refine ⟨df.eraseIdx i, rfl, List.length_eraseIdx_of_lt hi, ?_, ?_⟩
  · intro j hj
    exact List.getElem?_eraseIdx_of_lt df i j hj
  · intro j hj
    exact List.getElem?_eraseIdx_of_ge df i j hj

/-- Witness for C8: delete the middle row of a three-row library. -/
theorem C8_delete_element_witness :
    ∃ df2 : Library,
      delete_element [⟨"A", "role", "a"⟩, ⟨"B", "goal", "b"⟩,
        ⟨"C", "tone", "c"⟩] 1 = some df2 ∧
      df2.length = 3 - 1 ∧
      (∀ j, j < 1 → df2[j]? =
        ([⟨"A", "role", "a"⟩, ⟨"B", "goal", "b"⟩,
          ⟨"C", "tone", "c"⟩] : Library)[j]?) ∧
      (∀ j, 1 ≤ j → df2[j]? =
        ([⟨"A", "role", "a"⟩, ⟨"B", "goal", "b"⟩,
          ⟨"C", "tone", "c"⟩] : Library)[j + 1]?) :=
  C8_delete_element
    [⟨"A", "role", "a"⟩, ⟨"B", "goal", "b"⟩, ⟨"C", "tone", "c"⟩] 1
    (by decide)

/-- C10: when several rows share a title, the lookup used by prompt
composition returns the content of the first matching row in table order,
and both the single-select and the multi-select content computations use
that first row's content. -/
theorem C10_duplicate_titles_first_row (df1 df2 : Library) (f : Fragment)
    (hbefore : ∀ g ∈ df1, g.title ≠ f.title) :
    lookupContent (df1 ++ f :: df2) f.title = some f.content ∧
    (∀ c : String, f.title ≠ "Write your own" →
      singleContent (df1 ++ f :: df2) ⟨f.title, c⟩ = some f.content) ∧
    (∀ c : String, f.title ≠ "Skip" → f.title ≠ "Write your own" →
      multiContent (df1 ++ f :: df2) ⟨[f.title], c⟩ = some f.content) := by
  have hfind : (df1 ++ f :: df2).find? (fun g => g.title == f.title) = some f := by
    rw [List.find?_append]
    have h1 : df1.find? (fun g => g.title == f.title) = none := by
      rw [List.find?_eq_none]
      intro g hg
      simpa using hbefore g hg
    rw [h1, List.find?_cons_of_pos _ (by simp)]
    rfl
  have hlook : lookupContent (df1 ++ f :: df2) f.title = some f.content := by
    rw [lookupContent, hfind]
    rfl
  refine ⟨hlook, ?_, ?_⟩
  · intro c hW
    rw [singleContent]
    simp only [beq_iff_eq]
    rw [if_neg hW]
    exact hlook
  · intro c hS hW
    rw [multiContent]
    have hcon : ([f.title].contains "Write your own") = false := by
      simp [Ne.symm hW]
    rw [hcon]
    simp only [Bool.false_eq_true, if_false]
    have hfil : [f.title].filter (fun a => a != "Skip" && a != "Write your own")
        = [f.title] := by
      simp [hS, hW]
    rw [hfil, lookupAllContents, hlook]
    rfl

/-- Witness for C10: two rows share the title "Dup"; the earlier one wins. -/
theorem C10_duplicate_titles_first_row_witness :
    lookupContent ([⟨"X", "goal", "x"⟩] ++ ⟨"Dup", "role", "first"⟩ ::
        [⟨"Dup", "role", "second"⟩]) "Dup" = some "first" ∧
    (∀ c : String, ("Dup" : String) ≠ "Write your own" →
      singleContent ([⟨"X", "goal", "x"⟩] ++ ⟨"Dup", "role", "first"⟩ ::
        [⟨"Dup", "role", "second"⟩]) ⟨"Dup", c⟩ = some "first") ∧
    (∀ c : String, ("Dup" : String) ≠ "Skip" →
        ("Dup" : String) ≠ "Write your own" →
      multiContent ([⟨"X", "goal", "x"⟩] ++ ⟨"Dup", "role", "first"⟩ ::
        [⟨"Dup", "role", "second"⟩]) ⟨["Dup"], c⟩ = some "first") :=
  C10_duplicate_titles_first_row [⟨"X", "goal", "x"⟩]
    [⟨"Dup", "role", "second"⟩] ⟨"Dup", "role", "first"⟩
    (by intro g hg; simp at hg; subst hg; decide)

/-- `lookupAllContents` succeeds exactly on pointwise successful lookups:
a pointwise match list gives the joined result. -/
theorem lookupAllContents_of_forall₂ (df : Library) {l : List String}
    {cs : List String}
    (h : List.Forall₂ (fun a c => lookupContent df a = some c) l cs) :
    lookupAllContents df l = some cs := by
  induction h with
  | nil => rfl
  | cons ha _ ih =>
      rw [lookupAllContents, ha, ih]
      rfl

/-- A single failing lookup anywhere in the list makes the whole
comprehension fail. -/
theorem lookupAllContents_eq_none (df : Library) {l : List String}
    {a : String} (hmem : a ∈ l) (hfail : lookupContent df a = none) :
    lookupAllContents df l = none := by
  induction l with
  | nil => cases hmem
  | cons b rest ih =>
      rw [lookupAllContents]
      rcases List.mem_cons.mp hmem with rfl | hrest
      · rw [hfail]
        rfl
      · cases hb : lookupContent df b
        · rfl
        · rw [ih hrest]
          rfl

/-- C3: for a multi-select category, when the "Write your own" sentinel is
among the selections the content is exactly the free text and every
fragment reference is ignored; when it is absent, the content is the
referenced fragments' `content` fields joined one per line, in selection
order, with "Skip" entries excluded. -/
theorem C3_multi_select_content (df : Library) :
    (∀ m : MultiSel, m.selected.contains "Write your own" = true →
      multiContent df m = some m.custom) ∧
    (∀ m : MultiSel, "Write your own" ∉ m.selected →
      ∀ cs : List String,
        List.Forall₂ (fun a c => lookupContent df a = some c)
          (m.selected.filter (fun a => a != "Skip")) cs →
        multiContent df m = some (String.intercalate "\n" cs)) := by
  constructor
  · intro m hW
    rw [multiContent, hW]
    simp
  · intro m hW cs hcs
    rw [multiContent]
    have hcon : (m.selected.contains "Write your own") = false := by
      simpa using fun h => hW (by simpa using h)
    rw [hcon]
    simp only [Bool.false_eq_true, if_false]
    have hfil : m.selected.filter (fun a => a != "Skip" && a != "Write your own")
        = m.selected.filter (fun a => a != "Skip") := by
      apply List.filter_congr
      intro a ha
      have : a ≠ "Write your own" := fun h => hW (h ▸ ha)
      simp [this]
    rw [hfil, lookupAllContents_of_forall₂ df hcs]
    rfl

/-- Witness for C3: sentinel present drops the reference; sentinel absent
joins the two referenced contents in selection order. -/
theorem C3_multi_select_content_witness :
    multiContent [⟨"A", "context", "aaa"⟩, ⟨"B", "context", "bbb"⟩]
      ⟨["Write your own", "A"], "my text"⟩ = some "my text" ∧
    multiContent [⟨"A", "context", "aaa"⟩, ⟨"B", "context", "bbb"⟩]
      ⟨["B", "Skip", "A"], ""⟩ = some (String.intercalate "\n" ["bbb", "aaa"]) := by
  constructor
  · exact (C3_multi_select_content _).1 ⟨["Write your own", "A"], "my text"⟩
      (by decide)
  · exact (C3_multi_select_content _).2 ⟨["B", "Skip", "A"], ""⟩ (by decide)
      ["bbb", "aaa"]
      (by constructor
          · rfl
          · constructor
            · rfl
            · exact List.Forall₂.nil)

/-- C9: a single-select category with any non-"Skip" selection always
contributes exactly one section when composition succeeds, even when the
content is empty ("Write your own" with empty free text yields the bare
line "Role: "); a multi-select category whose computed content is the
empty string contributes no section. -/
theorem C9_empty_content_asymmetry (df : Library) (label : String) :
    (∀ s : SingleSel, s.selected ≠ "Skip" →
      ∀ ps, singleSection df label s = some ps → ps.length = 1) ∧
    singleSection df "Role" ⟨"Write your own", ""⟩ = some ["Role: "] ∧
    (∀ m : MultiSel, multiContent df m = some "" →
      multiSection df label m = some []) := by
  refine ⟨?_, rfl, ?_⟩
  · intro s hs ps hps
    rw [singleSection] at hps
    rw [if_neg (by simpa using hs)] at hps
    rcases Option.map_eq_some'.mp hps with ⟨c, _, rfl⟩
    rfl
  · intro m hm
    rw [multiSection]
    by_cases hskip : m.selected.isEmpty || m.selected == ["Skip"]
    · rw [if_pos hskip]
    · rw [if_neg hskip, hm]
      rfl

/-- Witness for C9: empty free text still yields a Role section; a
multi-select reference to a fragment with empty content yields none. -/
theorem C9_empty_content_asymmetry_witness :
    (∀ s : SingleSel, s.selected ≠ "Skip" →
      ∀ ps, singleSection [⟨"E", "output", ""⟩] "Output" s = some ps →
        ps.length = 1) ∧
    singleSection [⟨"E", "output", ""⟩] "Role" ⟨"Write your own", ""⟩
      = some ["Role: "] ∧
    (∀ m : MultiSel, multiContent [⟨"E", "output", ""⟩] m = some "" →
      multiSection [⟨"E", "output", ""⟩] "Output" m = some []) :=
  C9_empty_content_asymmetry [⟨"E", "output", ""⟩] "Output"

/-- A single-select category whose selection is a title matched by no
library row (and is neither sentinel) makes its loop iteration raise. -/
def SingleUnmatched (df : Library) (s : SingleSel) : Prop :=
  s.selected ≠ "Skip" ∧ s.selected ≠ "Write your own" ∧
    lookupContent df s.selected = none

/-- A multi-select category that is not skipped, has no free-text
sentinel, and references at least one title matched by no library row. -/
def MultiUnmatched (df : Library) (s : MultiSel) : Prop :=
  "Write your own" ∉ s.selected ∧
    ∃ a ∈ s.selected, a ≠ "Skip" ∧ lookupContent df a = none

theorem singleSection_of_unmatched (df : Library) (label : String)
    {s : SingleSel} (h : SingleUnmatched df s) :
    singleSection df label s = none := by
  obtain ⟨hS, hW, hfail⟩ := h
  rw [singleSection, if_neg (by simpa using hS), singleContent,
    if_neg (by simpa using hW), hfail]
  rfl

theorem multiSection_of_unmatched (df : Library) (label : String)
    {s : MultiSel} (h : MultiUnmatched df s) :
    multiSection df label s = none := by
  obtain ⟨hW, a, ha, haS, hfail⟩ := h
  have hnotskip : ¬(s.selected.isEmpty = true ∨ s.selected = ["Skip"]) := by
    rintro (he | he)
    · rw [List.isEmpty_iff] at he
      simp [he] at ha
    · rw [he] at ha
      simp at ha
      exact haS ha
  rw [multiSection]
  rw [if_neg (by simpa using hnotskip)]
  have hcon : (s.selected.contains "Write your own") = false := by
    simpa using fun h => hW (by simpa using h)
  rw [multiContent, hcon]
  simp only [Bool.false_eq_true, if_false]
  have hmemfil : a ∈ s.selected.filter
      (fun a => a != "Skip" && a != "Write your own") := by
    rw [List.mem_filter]
    refine ⟨ha, ?_⟩
    have haW : a ≠ "Write your own" := fun h => hW (h ▸ ha)
    simp [haS, haW]
  rw [lookupAllContents_eq_none df hmemfil hfail]
  rfl

/-- C5: a selection that references a title with no exact match in the
loaded library, in a non-skipped, non-free-text position of any category,
makes prompt composition fail (the lookup raises an unhandled IndexError,
modelled as `none`) instead of skipping the reference. -/
theorem C5_unmatched_title_fails (sel : Selections) (df : Library)
    (fb : Bool)
    (h : SingleUnmatched df sel.role ∨ SingleUnmatched df sel.goal ∨
      SingleUnmatched df sel.tone ∨ MultiUnmatched df sel.audience ∨
      MultiUnmatched df sel.context ∨ MultiUnmatched df sel.output) :
    generate_prompt sel df fb = none := by
  rw [generate_prompt]
  suffices hP : promptParts sel df = none by
    rw [hP]
    rfl
  rw [promptParts]
  rcases h with h | h | h | h | h | h
  · rw [singleSection_of_unmatched df "Role" h]
    rfl
  · rw [singleSection_of_unmatched df "Goal" h]
    cases singleSection df "Role" sel.role <;> rfl
  · rw [singleSection_of_unmatched df "Tone" h]
    cases singleSection df "Role" sel.role <;>
      cases singleSection df "Goal" sel.goal <;>
      cases multiSection df "Target Audience" sel.audience <;>
      cases multiSection df "Context" sel.context <;>
      cases multiSection df "Output" sel.output <;> rfl
  · rw [multiSection_of_unmatched df "Target Audience" h]
    cases singleSection df "Role" sel.role <;>
      cases singleSection df "Goal" sel.goal <;> rfl
  · rw [multiSection_of_unmatched df "Context" h]
    cases singleSection df "Role" sel.role <;>
      cases singleSection df "Goal" sel.goal <;>
      cases multiSection df "Target Audience" sel.audience <;> rfl
  · rw [multiSection_of_unmatched df "Output" h]
    cases singleSection df "Role" sel.role <;>
      cases singleSection df "Goal" sel.goal <;>
      cases multiSection df "Target Audience" sel.audience <;>
      cases multiSection df "Context" sel.context <;> rfl

/-- Witness for C5: referencing the absent title "Missing" for the
context category crashes composition. -/
theorem C5_unmatched_title_fails_witness :
    generate_prompt
      ⟨⟨"Skip", ""⟩, ⟨"Skip", ""⟩, ⟨[], ""⟩, ⟨["Missing"], ""⟩, ⟨[], ""⟩,
        ⟨"Skip", ""⟩⟩
      [⟨"Expert", "role", "You are a senior engineer."⟩] false = none :=
  C5_unmatched_title_fails _ _ false
    (Or.inr (Or.inr (Or.inr (Or.inr (Or.inl
      ⟨by decide, "Missing", by decide, by decide, by decide⟩)))))

/-- Every part a single-select category contributes has the one-line
shape "<label>: <content>". -/
theorem singleSection_shape (df : Library) (label : String) {s : SingleSel}
    {ps : List String} (h : singleSection df label s = some ps) :
    ∀ x ∈ ps, ∃ c, x = label ++ ": " ++ c := by
  rw [singleSection] at h
  by_cases hs : (s.selected == "Skip") = true
  · rw [if_pos hs] at h
    obtain rfl : ([] : List String) = ps := Option.some.inj h
    intro x hx
    exact absurd hx (List.not_mem_nil x)
  · rw [if_neg hs] at h
    rcases Option.map_eq_some'.mp h with ⟨c, _, rfl⟩
    intro x hx
    rw [List.mem_singleton] at hx
    exact ⟨c, hx⟩

/-- Every part a multi-select category contributes has the two-line
shape "<label>:\n<content>". -/
theorem multiSection_shape (df : Library) (label : String) {s : MultiSel}
    {ps : List String} (h : multiSection df label s = some ps) :
    ∀ x ∈ ps, ∃ c, x = label ++ ":\n" ++ c := by
  rw [multiSection] at h
  by_cases hs : (s.selected.isEmpty || s.selected == ["Skip"]) = true
  · rw [if_pos hs] at h
    obtain rfl : ([] : List String) = ps := Option.some.inj h
    intro x hx
    exact absurd hx (List.not_mem_nil x)
  · rw [if_neg hs] at h
    rcases Option.map_eq_some'.mp h with ⟨c, _, rfl⟩
    intro x hx
    by_cases hc : (c == "") = true
    · rw [if_pos hc] at hx
      exact absurd hx (List.not_mem_nil x)
    · rw [if_neg hc] at hx
      rw [List.mem_singleton] at hx
      exact ⟨c, hx⟩

/-- C1: a successfully generated prompt (feedback off) is exactly the
blank-line join of the per-category parts in the fixed order role, goal,
audience, context, output, tone; the role/goal/tone parts have the
one-line form "<Label>: <content>" and the audience/context/output parts
have the form "<Label>:\n<content>" with audience labeled
"Target Audience". -/
theorem C1_order_format_join (sel : Selections) (df : Library)
    (p : String) (h : generate_prompt sel df false = some p) :
    ∃ pr pg pa pc po pt : List String,
      singleSection df "Role" sel.role = some pr ∧
      singleSection df "Goal" sel.goal = some pg ∧
      multiSection df "Target Audience" sel.audience = some pa ∧
      multiSection df "Context" sel.context = some pc ∧
      multiSection df "Output" sel.output = some po ∧
      singleSection df "Tone" sel.tone = some pt ∧
      p = String.intercalate "\n\n" (pr ++ pg ++ pa ++ pc ++ po ++ pt) ∧
      (∀ x ∈ pr, ∃ c, x = "Role: " ++ c) ∧
      (∀ x ∈ pg, ∃ c, x = "Goal: " ++ c) ∧
      (∀ x ∈ pa, ∃ c, x = "Target Audience:\n" ++ c) ∧
      (∀ x ∈ pc, ∃ c, x = "Context:\n" ++ c) ∧
      (∀ x ∈ po, ∃ c, x = "Output:\n" ++ c) ∧
      (∀ x ∈ pt, ∃ c, x = "Tone: " ++ c) := by
  rw [generate_prompt] at h
  rcases Option.map_eq_some'.mp h with ⟨parts, hparts, hp⟩
  simp only [promptParts, Option.bind_eq_bind, Option.bind_eq_some,
    Option.pure_def, Option.some.injEq] at hparts
  obtain ⟨pr, h1, pg, h2, pa, h3, pc, h4, po, h5, pt, h6, hEq⟩ := hparts
  subst hEq
  exact ⟨pr, pg, pa, pc, po, pt, h1, h2, h3, h4, h5, h6, hp.symm,
    singleSection_shape df "Role" h1, singleSection_shape df "Goal" h2,
    multiSection_shape df "Target Audience" h3,
    multiSection_shape df "Context" h4, multiSection_shape df "Output" h5,
    singleSection_shape df "Tone" h6⟩

/-- Witness for C1 at a concrete selection set covering a single-select
and a multi-select contribution. -/
theorem C1_order_format_join_witness :
    ∃ pr pg pa pc po pt : List String,
      singleSection [⟨"Expert", "role", "You are a senior engineer."⟩,
        ⟨"Devs", "audience", "Developers"⟩] "Role" ⟨"Expert", ""⟩ = some pr ∧
      singleSection [⟨"Expert", "role", "You are a senior engineer."⟩,
        ⟨"Devs", "audience", "Developers"⟩] "Goal" ⟨"Skip", ""⟩ = some pg ∧
      multiSection [⟨"Expert", "role", "You are a senior engineer."⟩,
        ⟨"Devs", "audience", "Developers"⟩] "Target Audience" ⟨["Devs"], ""⟩
        = some pa ∧
      multiSection [⟨"Expert", "role", "You are a senior engineer."⟩,
        ⟨"Devs", "audience", "Developers"⟩] "Context" ⟨[], ""⟩ = some pc ∧
      multiSection [⟨"Expert", "role", "You are a senior engineer."⟩,
        ⟨"Devs", "audience", "Developers"⟩] "Output" ⟨[], ""⟩ = some po ∧
      singleSection [⟨"Expert", "role", "You are a senior engineer."⟩,
        ⟨"Devs", "audience", "Developers"⟩] "Tone" ⟨"Skip", ""⟩ = some pt ∧
      "Role: You are a senior engineer.\n\nTarget Audience:\nDevelopers"
        = String.intercalate "\n\n" (pr ++ pg ++ pa ++ pc ++ po ++ pt) ∧
      (∀ x ∈ pr, ∃ c, x = "Role: " ++ c) ∧
      (∀ x ∈ pg, ∃ c, x = "Goal: " ++ c) ∧
      (∀ x ∈ pa, ∃ c, x = "Target Audience:\n" ++ c) ∧
      (∀ x ∈ pc, ∃ c, x = "Context:\n" ++ c) ∧
      (∀ x ∈ po, ∃ c, x = "Output:\n" ++ c) ∧
      (∀ x ∈ pt, ∃ c, x = "Tone: " ++ c) :=
  C1_order_format_join
    ⟨⟨"Expert", ""⟩, ⟨"Skip", ""⟩, ⟨["Devs"], ""⟩, ⟨[], ""⟩, ⟨[], ""⟩,
      ⟨"Skip", ""⟩⟩
    [⟨"Expert", "role", "You are a senior engineer."⟩,
      ⟨"Devs", "audience", "Developers"⟩]
    "Role: You are a senior engineer.\n\nTarget Audience:\nDevelopers"
    (by decide)
